import Mathlib

/-!
Verification development for the Puppeteer_Bot repository.

Shallow embedding of the core modules:
* `src/src/fingerprint.js` — synthetic identity generation (`chooseRandom`,
  `randomInRange`, `buildFingerprint`);
* `src/src/sessionManager.js` — session restore and cookie/storage replay;
* `src/src/action.js` — display grid planner (`calculateGridLayout`,
  `computeWindowArgs`);
* `src/unnamed/part_003` (controller) — bounded-concurrency scheduler
  (`runWithConcurrency`), cycle-count derivation (`computeCycleCount`) and
  concurrency-limit computation.

Conventions: JavaScript numbers used as integers are modelled as `Int`
(or `Nat` where the source value is a count), fractional config values as
`Rat`; `undefined` is `Option.none`; `crypto.randomInt(n)` is modelled by an
externally supplied stream `r : Nat → Nat` consumed positionally, the draw
for bound `n` being `r i % n`; fallible code returns `Except`/`Option`.
`deepClone` of JSON-representable data is the identity on our pure values.
-/

namespace PuppeteerBot

/-- Error raised by the fingerprint module
("Fingerprint list cannot be empty.", src/src/fingerprint.js line 16). -/
inductive FpError where
  | emptyPool
  deriving DecidableEq, Repr

/-- `chooseRandom(list, fallback)` from src/src/fingerprint.js lines 7-17:
pick a uniformly random element of a non-empty array; otherwise return the
fallback when it is not `undefined`; otherwise throw.  The random index
`randomInt(list.length)` is modelled as `r % list.length`. -/
def chooseRandom {α : Type} (list : List α) (fallback : Option α) (r : Nat) :
    Except FpError α :=
  if h : 0 < list.length then
    .ok (list.get ⟨r % list.length, Nat.mod_lt _ h⟩)
  else
    match fallback with
    | some v => .ok v
    | none => .error .emptyPool

/-- `randomInRange(range, fallback)` from src/src/fingerprint.js lines 19-28:
a malformed range (not an array of exactly two numbers; `none` models a
non-array value) or `min > max` yields the fallback; otherwise
`min + randomInt(max - min + 1)`. -/
def randomInRange (range : Option (List Int)) (fallback : Option Int) (r : Nat) :
    Option Int :=
  match range with
  | some [min, max] =>
      if min > max then fallback
      else some (min + (r % (max - min + 1).toNat : Nat))
  | _ => fallback

structure ScreenResolution where
  width : Int
  height : Int
  deriving DecidableEq, Repr

structure WindowBounds where
  outerWidth : Int
  outerHeight : Int
  innerWidth : Option Int
  innerHeight : Option Int
  deriving DecidableEq, Repr

structure CanvasConfig where
  vendor : String
  renderer : String
  seed : String
  deriving DecidableEq, Repr

structure BatteryProfile where
  charging : Bool
  level : Rat
  chargingTime : Option Int
  dischargingTime : Option Int
  deriving DecidableEq, Repr

structure Viewport where
  width : Int
  height : Int
  deviceScaleFactor : Rat
  isMobile : Bool
  hasTouch : Bool
  isLandscape : Bool
  deriving DecidableEq, Repr

/-- The Identity record returned by `buildFingerprint`
(src/src/fingerprint.js lines 71-91).  Plugin, mime-type and media-device
descriptors are treated as opaque values by the generator (chosen and
deep-cloned only), modelled as strings. -/
structure Fingerprint where
  userAgent : String
  languages : List String
  timezoneId : String
  platform : String
  vendor : String
  doNotTrack : Option String
  screenResolution : ScreenResolution
  windowBounds : WindowBounds
  devicePixelRatio : Rat
  hardwareConcurrency : Option Int
  deviceMemory : Option Int
  canvas : CanvasConfig
  plugins : List String
  mimeTypes : List String
  mediaDevices : List String
  permissions : List (String × String)
  batteryProfile : BatteryProfile
  maxTouchPoints : Int
  viewport : Viewport
  deriving DecidableEq, Repr

/-- The `settings.fingerprint` candidate-pool configuration; every pool is
optional (`none` = key absent from settings.json). -/
structure FpConfig where
  userAgents : Option (List String) := none
  languages : Option (List (List String)) := none
  timezoneIds : Option (List String) := none
  platforms : Option (List String) := none
  vendors : Option (List String) := none
  doNotTrackOptions : Option (List (Option String)) := none
  screenResolutions : Option (List ScreenResolution) := none
  windowBounds : Option (List WindowBounds) := none
  devicePixelRatios : Option (List Rat) := none
  hardwareConcurrencyRange : Option (List Int) := none
  deviceMemoryRange : Option (List Int) := none
  canvasFingerprints : Option (List CanvasConfig) := none
  plugins : Option (List (List String)) := none
  mimeTypes : Option (List (List String)) := none
  mediaDevices : Option (List (List String)) := none
  permissions : Option (List (List (String × String))) := none
  batteryProfiles : Option (List BatteryProfile) := none
  maxTouchPoints : Option (List Int) := none
  deriving DecidableEq, Repr

structure Settings where
  fingerprint : Option FpConfig := none
  defaultUserAgent : Option String := none
  deriving DecidableEq, Repr

/-- `buildFingerprint(settings, existingFingerprint = null)` from
src/src/fingerprint.js lines 30-92.  An existing fingerprint is returned
unchanged; otherwise one value per attribute is drawn from the configured
pools (successive `r` positions model the successive `randomInt` calls). -/
def buildFingerprint (settings : Settings) (existingFingerprint : Option Fingerprint)
    (r : Nat → Nat) : Except FpError Fingerprint :=
  match existingFingerprint with
  | some fp => .ok fp
  | none =>
    let fpConfig := settings.fingerprint.getD {}
    do
    let userAgent ← chooseRandom
      (fpConfig.userAgents.getD [settings.defaultUserAgent.getD "Mozilla/5.0"]) none (r 0)
    let languages ← chooseRandom (fpConfig.languages.getD [["en-US", "en"]]) none (r 1)
    let timezoneId ← chooseRandom (fpConfig.timezoneIds.getD ["UTC"]) none (r 2)
    let platform ← chooseRandom (fpConfig.platforms.getD ["Win32"]) none (r 3)
    let vendor ← chooseRandom (fpConfig.vendors.getD ["Google Inc."]) none (r 4)
    let doNotTrack ← chooseRandom
      (fpConfig.doNotTrackOptions.getD [some "1", some "0", none]) (some none) (r 5)
    let screenResolution ← chooseRandom
      (fpConfig.screenResolutions.getD [⟨1920, 1080⟩]) none (r 6)
    let windowBounds ← chooseRandom
      (fpConfig.windowBounds.getD
        [⟨screenResolution.width, screenResolution.height,
          some (screenResolution.width - 120), some (screenResolution.height - 200)⟩])
      none (r 7)
    let devicePixelRatio ← chooseRandom (fpConfig.devicePixelRatios.getD [1]) none (r 8)
    let hardwareConcurrency :=
      randomInRange (some (fpConfig.hardwareConcurrencyRange.getD [4, 8])) (some 4) (r 9)
    let deviceMemory :=
      randomInRange (some (fpConfig.deviceMemoryRange.getD [4, 8])) (some 8) (r 10)
    let canvasConfig ← chooseRandom
      (fpConfig.canvasFingerprints.getD
        [⟨"Intel Inc.", "Intel Iris OpenGL Engine", "a1b2c3"⟩]) none (r 11)
    let plugins ← chooseRandom (fpConfig.plugins.getD [[]]) none (r 12)
    let mimeTypes ← chooseRandom (fpConfig.mimeTypes.getD [[]]) none (r 13)
    let mediaDevices ← chooseRandom (fpConfig.mediaDevices.getD [[]]) none (r 14)
    let permissions ← chooseRandom (fpConfig.permissions.getD [[]]) (some []) (r 15)
    let batteryProfile ← chooseRandom
      (fpConfig.batteryProfiles.getD [⟨true, (85 : Rat)/100, some 1200, none⟩]) none (r 16)
    let maxTouchPoints ← chooseRandom (fpConfig.maxTouchPoints.getD [0, 1, 5]) (some 0) (r 17)
    let viewport : Viewport :=
      { width := windowBounds.innerWidth.getD (max 800 (screenResolution.width - 120))
        height := windowBounds.innerHeight.getD (max 600 (screenResolution.height - 200))
        deviceScaleFactor := devicePixelRatio
        isMobile := false
        hasTouch := maxTouchPoints > 0
        isLandscape := true }
    return {
      userAgent := userAgent
      languages := languages
      timezoneId := timezoneId
      platform := platform
      vendor := vendor
      doNotTrack := doNotTrack
      screenResolution := screenResolution
      windowBounds := windowBounds
      devicePixelRatio := devicePixelRatio
      hardwareConcurrency := hardwareConcurrency
      deviceMemory := deviceMemory
      canvas := canvasConfig
      plugins := plugins
      mimeTypes := mimeTypes
      mediaDevices := mediaDevices
      permissions := permissions
      batteryProfile := batteryProfile
      maxTouchPoints := maxTouchPoints
      viewport := viewport }

/-- Concrete settings whose hardware-concurrency range is inverted ([8,4]). -/
def invalidRangeSettings : Settings :=
  { fingerprint := some { hardwareConcurrencyRange := some [8, 4] } }

/-- Concrete settings whose user-agent pool is present but empty. -/
def emptyPoolSettings : Settings :=
  { fingerprint := some { userAgents := some [] } }

/-- Whatever pools come out of the settings, a successful generation stores in
`hardwareConcurrency` exactly the `randomInRange` draw over the configured
range with fallback 4 (src/src/fingerprint.js line 50). -/
theorem buildFingerprint_hardwareConcurrency (settings : Settings) (r : Nat → Nat)
    (fp : Fingerprint) (h : buildFingerprint settings none r = .ok fp) :
    fp.hardwareConcurrency =
      randomInRange (some ((settings.fingerprint.getD {}).hardwareConcurrencyRange.getD [4, 8]))
        (some 4) (r 9) := by
  unfold buildFingerprint at h
  simp only [bind, Except.bind, pure, Except.pure] at h
  repeat' split at h
  all_goals first
    | (cases h; rfl)
    | simp_all

/-- C1. Identity continuity: for every settings/pool configuration, every
random source, and every already-existing Identity record,
`buildFingerprint settings (some existing) r` returns the existing Identity
unchanged, field for field; since the result does not depend on `settings`
or on the random source `r`, no attribute is re-generated. -/
theorem identity_continuity (settings : Settings) (existing : Fingerprint)
    (r : Nat → Nat) :
    buildFingerprint settings (some existing) r = .ok existing := rfl

/-- C7 counterexample: with `hardwareConcurrencyRange = [8, 4]` (min > max),
identity generation does not fail with any error: `randomInRange` returns the
call-site fallback 4 and `buildFingerprint` succeeds with
`hardwareConcurrency = 4`. -/
theorem invalid_range_returns_fallback :
    randomInRange (some [8, 4]) (some 4) 0 = some 4 ∧
    (buildFingerprint invalidRangeSettings none (fun _ => 0)).toOption.map
      (fun fp => fp.hardwareConcurrency) = some (some 4) := by
  exact ⟨by decide, rfl⟩

/-- C7 (amended). For a well-formed range with min ≤ max the draw satisfies
min ≤ k ≤ max — in particular a generated identity whose configured
hardware-concurrency range is [lo, hi] carries a value in that range; for an
inverted range (min > max) `randomInRange` returns the fallback value
instead of raising an error. -/
theorem randomInRange_contract (lo hi : Int) (fb : Option Int) (r : Nat) :
    (lo ≤ hi → ∃ k, randomInRange (some [lo, hi]) fb r = some k ∧ lo ≤ k ∧ k ≤ hi) ∧
    (hi < lo → randomInRange (some [lo, hi]) fb r = fb) ∧
    (∀ (settings : Settings) (rs : Nat → Nat) (fp : Fingerprint),
      (settings.fingerprint.getD {}).hardwareConcurrencyRange.getD [4, 8] = [lo, hi] →
      lo ≤ hi → buildFingerprint settings none rs = .ok fp →
      ∃ k, fp.hardwareConcurrency = some k ∧ lo ≤ k ∧ k ≤ hi) := by
  have draw : ∀ (fb2 : Option Int) (r2 : Nat), lo ≤ hi →
      ∃ k, randomInRange (some [lo, hi]) fb2 r2 = some k ∧ lo ≤ k ∧ k ≤ hi := by
    intro fb2 r2 h
    refine ⟨lo + (r2 % (hi - lo + 1).toNat : Nat), ?_, ?_, ?_⟩
    · simp only [randomInRange]
      rw [if_neg (by omega)]
    · omega
    · have hn : 0 < (hi - lo + 1).toNat := by omega
      have hm := Nat.mod_lt r2 hn
      omega
  refine ⟨draw fb r, ?_, ?_⟩
  · intro h
    simp only [randomInRange]
    rw [if_pos (by omega)]
  · intro settings rs fp hrange h hok
    have hfield := buildFingerprint_hardwareConcurrency settings rs fp hok
    rw [hrange] at hfield
    obtain ⟨k, hk, hk1, hk2⟩ := draw (some 4) (rs 9) h
    exact ⟨k, by rw [hfield, hk], hk1, hk2⟩

/-- Witness for `randomInRange_contract` at the concrete range [4, 8]. -/
theorem randomInRange_contract_witness :
    ∃ k, randomInRange (some [4, 8]) (some 4) 11 = some k ∧ 4 ≤ k ∧ k ≤ 8 :=
  (randomInRange_contract 4 8 (some 4) 11).1 (by decide)

/-- C8. Empty pool: when a required candidate pool is present but empty
(here the user-agent pool) and no fallback is configured, identity generation
fails with the empty-pool error; moreover `chooseRandom` never fabricates a
value: a successful result is a pool member or the supplied fallback. -/
theorem empty_pool_error (settings : Settings) (cfg : FpConfig) (r : Nat → Nat)
    (hcfg : settings.fingerprint = some cfg) (hpool : cfg.userAgents = some []) :
    buildFingerprint settings none r = .error .emptyPool ∧
    ∀ (α : Type) (list : List α) (fb : Option α) (k : Nat) (v : α),
      chooseRandom list fb k = .ok v → v ∈ list ∨ fb = some v := by
  constructor
  · unfold buildFingerprint
    simp [hcfg, hpool, chooseRandom, bind, Except.bind]
  · intro α list fb k v hv
    by_cases h : 0 < list.length
    · left
      unfold chooseRandom at hv
      rw [dif_pos h] at hv
      cases hv
      exact List.get_mem _ _ _
    · right
      unfold chooseRandom at hv
      rw [dif_neg h] at hv
      cases fb with
      | some w => cases hv; rfl
      | none => simp at hv

/-- Witness for `empty_pool_error` at a concrete settings record with a
present-but-empty user-agent pool. -/
theorem empty_pool_error_witness :
    buildFingerprint emptyPoolSettings none (fun _ => 0) = .error .emptyPool ∧
    ∀ (α : Type) (list : List α) (fb : Option α) (k : Nat) (v : α),
      chooseRandom list fb k = .ok v → v ∈ list ∨ fb = some v :=
  empty_pool_error emptyPoolSettings { userAgents := some [] } (fun _ => 0) rfl rfl

/-! ## Session store (src/src/sessionManager.js) -/

/-- Result of attempting to read one session artifact file
(`fs.readJson` inside `safeReadJson`): the file may be missing, may fail to
parse, or may yield content. -/
inductive ArtifactRead (α : Type) where
  | missing
  | corrupt
  | ok (value : α)
  deriving DecidableEq, Repr

/-- A saved cookie record.  `domain` is `none` when the record carries no
domain attribute; the capture-only attributes are those deleted before
replay (src/src/sessionManager.js lines 104-110). -/
structure Cookie where
  name : String
  value : String
  domain : Option String := none
  partitionKey : Option String := none
  sourcePort : Option Int := none
  sourceScheme : Option String := none
  deriving DecidableEq, Repr

/-- `meta.json` content; the empty record `{}` has every field absent. -/
structure SessionMeta where
  startUrl : Option String := none
  timestamp : Option String := none
  fingerprint : Option Fingerprint := none
  deriving DecidableEq, Repr

/-- The Session value produced by `restoreSession`. -/
structure Session where
  cookies : List Cookie
  localStorage : List (String × String)
  sessionStorage : List (String × String)
  meta : SessionMeta
  deriving DecidableEq, Repr

/-- The observable state of one session directory: what reading each of the
four JSON artifacts would produce. -/
structure SessionDirState where
  cookiesFile : ArtifactRead (List Cookie)
  localStorageFile : ArtifactRead (List (String × String))
  sessionStorageFile : ArtifactRead (List (String × String))
  metaFile : ArtifactRead SessionMeta
  deriving DecidableEq, Repr

/-- `safeReadJson(file, fallback)` from src/src/sessionManager.js lines 74-80:
any read/parse failure is caught and replaced by the fallback. -/
def safeReadJson {α : Type} (file : ArtifactRead α) (fallback : α) : α :=
  match file with
  | .ok v => v
  | _ => fallback

/-- `restoreSession(sessionDir)` from src/src/sessionManager.js lines 66-87:
each artifact is read independently through `safeReadJson`; the function is
total (never raises). -/
def restoreSession (dir : SessionDirState) : Session :=
  { cookies := safeReadJson dir.cookiesFile []
    localStorage := safeReadJson dir.localStorageFile []
    sessionStorage := safeReadJson dir.sessionStorageFile []
    meta := safeReadJson dir.metaFile {} }

/-- `cookie.domain.replace(/^\\./, "")`: strip a single leading dot.
Written over the character list so that it evaluates in the kernel. -/
def stripLeadingDot (d : String) : String :=
  match d.data with
  | '.' :: rest => ⟨rest⟩
  | _ => d

/-- JavaScript `String.prototype.endsWith`: exact suffix test, written over
the character list so that it evaluates in the kernel. -/
def strEndsWith (s pat : String) : Bool :=
  pat.data.isSuffixOf s.data

/-- The URL string whose hostname scopes cookie replay:
`originUrl ?? session.meta?.startUrl ?? page.url()`
(src/src/sessionManager.js line 96). -/
def resolveOriginUrl (originUrl : Option String) (meta : SessionMeta)
    (pageUrl : String) : String :=
  originUrl.getD (meta.startUrl.getD pageUrl)

/-- The per-cookie keep decision of the filter in `applySavedStorage`
(src/src/sessionManager.js lines 93-101).  `parseHostname` models the WHATWG
`new URL(u).hostname` of the platform; `none` means the URL constructor
throws, which the code catches by keeping the cookie. -/
def cookieKept (parseHostname : String → Option String) (origin : String)
    (cookie : Cookie) : Bool :=
  match cookie.domain with
  | none => true
  | some d =>
    match parseHostname origin with
    | some host => strEndsWith host (stripLeadingDot d)
    | none => true

/-- The cookie list `applySavedStorage` replays via `page.setCookie`
(src/src/sessionManager.js lines 92-117): exactly the saved cookies passing
the origin filter (when none pass, or none are saved, `setCookie` is simply
not called, which replays the same empty list). -/
def replayedCookies (parseHostname : String → Option String) (session : Session)
    (originUrl : Option String) (pageUrl : String) : List Cookie :=
  session.cookies.filter
    (cookieKept parseHostname (resolveOriginUrl originUrl session.meta pageUrl))

/-- C5. Restore with empty defaults: whichever artifacts are missing or
corrupt, `restoreSession` returns a Session replacing each unreadable
artifact by that field's empty default (cookies → empty list, storages →
empty mappings, meta → empty record); being a total function it never
raises. -/
theorem restore_empty_defaults (dir : SessionDirState) :
    ((∀ v, dir.cookiesFile ≠ .ok v) → (restoreSession dir).cookies = []) ∧
    ((∀ v, dir.localStorageFile ≠ .ok v) → (restoreSession dir).localStorage = []) ∧
    ((∀ v, dir.sessionStorageFile ≠ .ok v) → (restoreSession dir).sessionStorage = []) ∧
    ((∀ v, dir.metaFile ≠ .ok v) → (restoreSession dir).meta = {}) := by
  refine ⟨?_, ?_, ?_, ?_⟩
  · intro h
    cases hc : dir.cookiesFile with
    | ok v => exact absurd hc (h v)
    | missing => simp [restoreSession, safeReadJson, hc]
    | corrupt => simp [restoreSession, safeReadJson, hc]
  · intro h
    cases hc : dir.localStorageFile with
    | ok v => exact absurd hc (h v)
    | missing => simp [restoreSession, safeReadJson, hc]
    | corrupt => simp [restoreSession, safeReadJson, hc]
  · intro h
    cases hc : dir.sessionStorageFile with
    | ok v => exact absurd hc (h v)
    | missing => simp [restoreSession, safeReadJson, hc]
    | corrupt => simp [restoreSession, safeReadJson, hc]
  · intro h
    cases hc : dir.metaFile with
    | ok v => exact absurd hc (h v)
    | missing => simp [restoreSession, safeReadJson, hc]
    | corrupt => simp [restoreSession, safeReadJson, hc]

/-- Witness for `restore_empty_defaults` on a directory whose cookie file was
deleted and whose other artifacts are corrupt. -/
theorem restore_empty_defaults_witness :
    ((∀ v, (SessionDirState.mk .missing .corrupt .corrupt .corrupt).cookiesFile ≠ .ok v) →
      (restoreSession ⟨.missing, .corrupt, .corrupt, .corrupt⟩).cookies = []) ∧
    ((∀ v, (SessionDirState.mk .missing .corrupt .corrupt .corrupt).localStorageFile ≠ .ok v) →
      (restoreSession ⟨.missing, .corrupt, .corrupt, .corrupt⟩).localStorage = []) ∧
    ((∀ v, (SessionDirState.mk .missing .corrupt .corrupt .corrupt).sessionStorageFile ≠ .ok v) →
      (restoreSession ⟨.missing, .corrupt, .corrupt, .corrupt⟩).sessionStorage = []) ∧
    ((∀ v, (SessionDirState.mk .missing .corrupt .corrupt .corrupt).metaFile ≠ .ok v) →
      (restoreSession ⟨.missing, .corrupt, .corrupt, .corrupt⟩).meta = {}) :=
  restore_empty_defaults ⟨.missing, .corrupt, .corrupt, .corrupt⟩

/-- C6. Cookie origin filter: when the resolved origin URL parses to a
hostname, `applySavedStorage` replays exactly those saved cookies that carry
no domain restriction or whose domain, leading dot stripped, is a suffix of
that hostname. -/
theorem cookie_origin_filter (parseHostname : String → Option String)
    (session : Session) (originUrl : Option String) (pageUrl : String) (host : String)
    (hparse : parseHostname (resolveOriginUrl originUrl session.meta pageUrl) = some host)
    (cookie : Cookie) :
    cookie ∈ replayedCookies parseHostname session originUrl pageUrl ↔
      cookie ∈ session.cookies ∧
        (cookie.domain = none ∨
          ∃ d, cookie.domain = some d ∧ strEndsWith host (stripLeadingDot d) = true) := by
  simp only [replayedCookies, List.mem_filter]
  constructor
  · rintro ⟨hmem, hkeep⟩
    refine ⟨hmem, ?_⟩
    unfold cookieKept at hkeep
    cases hd : cookie.domain with
    | none => exact Or.inl rfl
    | some d =>
      rw [hd, hparse] at hkeep
      exact Or.inr ⟨d, rfl, hkeep⟩
  · rintro ⟨hmem, hdom⟩
    refine ⟨hmem, ?_⟩
    unfold cookieKept
    rcases hdom with hnone | ⟨d, hd, hsuf⟩
    · rw [hnone]
    · rw [hd, hparse]
      exact hsuf

/-- Concrete hostname oracle for `https://app.example.com`. -/
def exampleParse : String → Option String :=
  fun u => if u = "https://app.example.com" then some "app.example.com" else none

/-- Cookie scoped to `.example.com`. -/
def exampleCookie : Cookie := { name := "sid", value := "1", domain := some ".example.com" }

/-- Cookie scoped to `.other.com`. -/
def otherCookie : Cookie := { name := "sid", value := "2", domain := some ".other.com" }

/-- Two-cookie session used by the cookie-filter witness. -/
def exampleSession : Session :=
  { cookies := [exampleCookie, otherCookie], localStorage := [], sessionStorage := [],
    meta := {} }

/-- Witness for `cookie_origin_filter`: against origin
`https://app.example.com` the `.example.com` cookie is kept and the
`.other.com` cookie is dropped. -/
theorem cookie_origin_filter_witness :
    exampleCookie ∈
        replayedCookies exampleParse exampleSession (some "https://app.example.com") "" ∧
    otherCookie ∉
        replayedCookies exampleParse exampleSession (some "https://app.example.com") "" := by
  constructor
  · exact (cookie_origin_filter exampleParse exampleSession
      (some "https://app.example.com") "" "app.example.com" rfl exampleCookie).mpr
      ⟨by simp [exampleSession], Or.inr ⟨".example.com", rfl, by decide⟩⟩
  · intro hmem
    have h := (cookie_origin_filter exampleParse exampleSession
      (some "https://app.example.com") "" "app.example.com" rfl otherCookie).mp hmem
    rcases h with ⟨-, hnone | ⟨d, hd, hsuf⟩⟩
    · exact absurd hnone (by simp [otherCookie])
    · have hde : d = ".other.com" := by simpa [otherCookie] using hd.symm
      subst hde
      exact absurd hsuf (by decide)

/-- C10. Cookie replay on unparseable origin: when the resolved origin URL
(the supplied origin, or failing that the metadata startUrl / current page
URL) cannot be parsed, the filter keeps every saved cookie regardless of its
domain attribute, and the replay is not aborted. -/
theorem unparseable_origin_keeps_all (parseHostname : String → Option String)
    (session : Session) (originUrl : Option String) (pageUrl : String)
    (hparse : parseHostname (resolveOriginUrl originUrl session.meta pageUrl) = none) :
    replayedCookies parseHostname session originUrl pageUrl = session.cookies := by
  unfold replayedCookies
  apply List.filter_eq_self.mpr
  intro c _
  unfold cookieKept
  cases c.domain with
  | none => rfl
  | some d => rw [hparse]

/-- Witness for `unparseable_origin_keeps_all` on the two-cookie session with
an origin the URL parser rejects. -/
theorem unparseable_origin_keeps_all_witness :
    replayedCookies exampleParse exampleSession (some "not a url") "" =
      exampleSession.cookies :=
  unparseable_origin_keeps_all exampleParse exampleSession (some "not a url") "" rfl

/-! ## Worker pool scheduler (`runWithConcurrency`, src/unnamed/part_003
lines 48-70; the same function appears in src/src/controller.js) -/

/-- Instantaneous state of one `runWithConcurrency` batch: jobs still in
`queue`, promises in `active`, results already pushed, and whether the
single `runNext` driver is parked on `await Promise.race(active)`
(lines 61-63), which happens exactly when the preceding push filled the
ceiling. -/
structure SchedState where
  pending : Nat
  active : Nat
  finished : Nat
  blocked : Bool
  deriving DecidableEq, Repr

/-- Atomic events of a batch.  `start` models lines 54-60: `runNext` (which
is never re-entered concurrently) shifts the next queue item, calls the
iterator and pushes the promise, then parks iff `active.length >= limit`.
`finish` models the `.then` continuation of lines 56-59 running when a job
completes: the promise splices itself out of `active` and pushes its result;
a pending race resolves at that moment, unparking `runNext`. -/
inductive SchedStep (limit : Nat) : SchedState → SchedState → Prop
  | start (s : SchedState) (h : 0 < s.pending) (hb : s.blocked = false) :
      SchedStep limit s
        ⟨s.pending - 1, s.active + 1, s.finished, decide (limit ≤ s.active + 1)⟩
  | finish (s : SchedState) (h : 0 < s.active) :
      SchedStep limit s ⟨s.pending, s.active - 1, s.finished + 1, false⟩

/-- States reachable while `runWithConcurrency(items, limit, iterator)` runs
a batch of `m` jobs. -/
inductive SchedReachable (limit m : Nat) : SchedState → Prop
  | init : SchedReachable limit m ⟨m, 0, 0, false⟩
  | step {s t : SchedState} : SchedReachable limit m s → SchedStep limit s t →
      SchedReachable limit m t

/-- The collector-phase concurrency ceiling computed by the controller:
`maxCollectorConcurrency = Math.min(settings.maxCollectorConcurrency ?? 5,
collectorsCount || 1)` (src/unnamed/part_003 line 129) followed by the
per-cycle clamp `Math.max(1, Math.min(maxCollectorConcurrency, plan.length))`
(line 153), where `plan.length = collectorsCount` (buildCollectorPlan). -/
def collectorConcurrency (configuredMax : Option Nat) (collectorsCount : Nat) : Nat :=
  let maxCollectorConcurrency :=
    min (configuredMax.getD 5) (if collectorsCount = 0 then 1 else collectorsCount)
  max 1 (min maxCollectorConcurrency collectorsCount)

/-- Core invariant of `runWithConcurrency`: with a positive limit, the count
of simultaneously active jobs never exceeds the limit, and whenever the
driver is free to start another job the ceiling is not fully occupied. -/
theorem sched_active_le_limit {limit m : Nat} (hl : 1 ≤ limit) (s : SchedState)
    (hr : SchedReachable limit m s) :
    s.active ≤ limit ∧ (s.blocked = false → s.active < limit) := by
  induction hr with
  | init => exact ⟨Nat.zero_le _, fun _ => hl⟩
  | step hr hstep ih =>
    cases hstep with
    | start h hb =>
      have hlt := ih.2 hb
      refine ⟨by simpa using hlt, ?_⟩
      intro hbf
      simp only [decide_eq_false_iff_not, not_le] at hbf
      simpa using hbf
    | finish h =>
      have h1 := ih.1
      exact ⟨by simp; omega, fun _ => by simp; omega⟩

/-- Conservation invariant of `runWithConcurrency`: every job is started
exactly once (`queue.shift()`, never re-enqueued — no auto-retry) and every
started job contributes exactly one pushed result, so
pending + active + finished always equals the batch size. -/
theorem sched_conservation {limit m : Nat} (s : SchedState)
    (hr : SchedReachable limit m s) :
    s.pending + s.active + s.finished = m := by
  induction hr with
  | init => simp
  | step hr hstep ih =>
    cases hstep with
    | start h hb => simp at ih ⊢; omega
    | finish h => simp at ih ⊢; omega

/-- C3. Concurrency ceiling: for a batch of m ≥ 1 jobs and a configured
maximum ≥ 1 the controller computes the ceiling C = min(configured, m), and
in every reachable instant of the batch at most C jobs are simultaneously
active; moreover whenever a new job may start (driver not parked) the
ceiling is not fully occupied, so no job starts while it is. -/
theorem concurrency_ceiling (configuredMax m : Nat)
    (hcfg : 1 ≤ configuredMax) (hm : 1 ≤ m) :
    collectorConcurrency (some configuredMax) m = min configuredMax m ∧
    ∀ s, SchedReachable (min configuredMax m) m s →
      s.active ≤ min configuredMax m ∧
      (s.blocked = false → s.active < min configuredMax m) := by
  constructor
  · unfold collectorConcurrency
    rw [if_neg (by omega)]
    simp only [Option.getD_some]
    omega
  · intro s hs
    exact sched_active_le_limit (by omega) s hs

/-- Witness for `concurrency_ceiling` with configured maximum 2 and batch
size 3. -/
theorem concurrency_ceiling_witness :
    collectorConcurrency (some 2) 3 = min 2 3 ∧
    ∀ s, SchedReachable (min 2 3) 3 s →
      s.active ≤ min 2 3 ∧ (s.blocked = false → s.active < min 2 3) :=
  concurrency_ceiling 2 3 (by decide) (by decide)

/-- A resolved job outcome as recorded by the controller: `{status: "ok",
sessionDir, fingerprint}` from the try block of `runCollector`
(src/src/collector.js lines 119-138) or `{status: "error", error, profileId,
site}` from its catch (lines 139-141). -/
inductive Outcome where
  | ok (sessionDir : String) (fingerprint : Fingerprint)
  | error (error : String) (profileId : String) (site : String)
  deriving DecidableEq, Repr

/-- An uncaught throw escaping `runCollector` before its try block begins:
`await ensureDirectory(sessionDir)` (src/src/collector.js line 100) and
`buildFingerprint(settings)` (line 102) run before the `try` of line 119,
so a throw there rejects the job's promise instead of resolving it to an
outcome. -/
inductive JobReject where
  | ioError (message : String)
  | fpError (e : FpError)
  deriving DecidableEq, Repr

/-- `runCollector({profileId, site, settings, runId})`, src/src/collector.js
lines 98-147.  `sessionDir` is the pure `resolveSessionDir` result (line 99);
`ensureDir` models the awaited `ensureDirectory` call (line 100) and
`buildFingerprint` is really invoked (line 102) — both BEFORE the try block,
so either failure escapes as a rejection (`.error`).  From line 119 onward
the browser interaction (modelled by `attempt`, given the generated
fingerprint) runs inside try/catch/finally and resolves to an ok- or
error-shaped outcome (`.ok`). -/
def runCollector (profileId site sessionDir : String) (settings : Settings)
    (r : Nat → Nat) (ensureDir : Except String Unit)
    (attempt : Fingerprint → Except String Unit) : Except JobReject Outcome :=
  match ensureDir with
  | .error e => .error (.ioError e)
  | .ok _ =>
    match buildFingerprint settings none r with
    | .error e => .error (.fpError e)
    | .ok fingerprint =>
      match attempt fingerprint with
      | .ok _ => .ok (.ok sessionDir fingerprint)
      | .error e => .ok (.error e profileId site)

/-- The promise returned by `runWithConcurrency` (src/unnamed/part_003 lines
48-70) seen at batch level, each job's promise summarised as resolved
(`.ok outcome`) or rejected (`.error`).  A rejected job promise skips the
`.then` continuation of lines 56-59, so no result is pushed and the rejected
promise stays in `active`; the driver's `await Promise.race` (line 62) or
the final `await Promise.all` (line 68) then rejects, the rejection
propagates out of `runWithConcurrency`, and the collected `results` are
discarded.  (Which job's rejection surfaces depends on completion timing;
the model reports the first in queue order.) -/
def runWithConcurrencyResult :
    List (Except JobReject Outcome) → Except JobReject (List Outcome)
  | [] => .ok []
  | j :: rest =>
    match j with
    | .error e => .error e
    | .ok o =>
      match runWithConcurrencyResult rest with
      | .error e => .error e
      | .ok outs => .ok (o :: outs)

/-- The identity generated from empty settings with the all-zero random
source (every default pool's first entry). -/
def defaultFp : Fingerprint :=
  { userAgent := "Mozilla/5.0"
    languages := ["en-US", "en"]
    timezoneId := "UTC"
    platform := "Win32"
    vendor := "Google Inc."
    doNotTrack := some "1"
    screenResolution := ⟨1920, 1080⟩
    windowBounds := ⟨1920, 1080, some 1800, some 880⟩
    devicePixelRatio := 1
    hardwareConcurrency := some 4
    deviceMemory := some 4
    canvas := ⟨"Intel Inc.", "Intel Iris OpenGL Engine", "a1b2c3"⟩
    plugins := []
    mimeTypes := []
    mediaDevices := []
    permissions := []
    batteryProfile := ⟨true, (85 : Rat) / 100, some 1200, none⟩
    maxTouchPoints := 0
    viewport := ⟨1800, 880, 1, false, false, true⟩ }

/-- C4 counterexample: with a present-but-empty required pool the
`buildFingerprint(settings)` call at src/src/collector.js line 102 throws
BEFORE the try block of line 119, so the job does not complete with an
ok/error-shaped outcome — its promise rejects — and a 2-job batch containing
it rejects as a whole, producing no outcome list (instead of M = 2 outcomes
with the sibling completing). -/
theorem collector_pretry_rejection :
    runCollector "0001" "siteA" "sessions/run/0001" emptyPoolSettings
        (fun _ => 0) (.ok ()) (fun _ => .ok ()) = .error (.fpError .emptyPool) ∧
    ∀ outs : List Outcome,
      runWithConcurrencyResult
        [runCollector "0001" "siteA" "sessions/run/0001" emptyPoolSettings
            (fun _ => 0) (.ok ()) (fun _ => .ok ()),
          .ok (.error "navigation timeout" "0002" "siteA")] ≠ .ok outs := by
  refine ⟨rfl, ?_⟩
  intro outs h
  rw [show runWithConcurrencyResult
      [runCollector "0001" "siteA" "sessions/run/0001" emptyPoolSettings
          (fun _ => 0) (.ok ()) (fun _ => .ok ()),
        .ok (.error "navigation timeout" "0002" "siteA")] =
      .error (.fpError .emptyPool) from rfl] at h
  exact Except.noConfusion h

/-- C4 (amended). A collector job whose pre-try phase succeeds — the session
directory is created and identity generation returns a fingerprint — always
resolves with an ok-shaped outcome or an error-shaped outcome carrying the
failing profile and site, whatever the guarded browser interaction does;
a batch in which every job so resolves produces exactly one outcome per
job, and the scheduler neither retries nor drops jobs (pending + active +
finished is conserved, so a terminal batch has exactly m outcomes).  But a
job that throws before its try block (directory creation failure, or a
generation error such as an empty required pool) rejects instead, and the
whole batch call rejects with it, yielding no outcome list. -/
theorem partial_failure_isolation :
    (∀ (profileId site sessionDir : String) (settings : Settings) (r : Nat → Nat)
      (attempt : Fingerprint → Except String Unit) (fp : Fingerprint),
      buildFingerprint settings none r = .ok fp →
      runCollector profileId site sessionDir settings r (.ok ()) attempt =
          .ok (.ok sessionDir fp) ∨
        ∃ e, runCollector profileId site sessionDir settings r (.ok ()) attempt =
          .ok (.error e profileId site)) ∧
    (∀ jobs : List (Except JobReject Outcome),
      (∀ j ∈ jobs, ∃ o, j = .ok o) →
      ∃ outs, runWithConcurrencyResult jobs = .ok outs ∧
        outs.length = jobs.length) ∧
    (∀ (jobs : List (Except JobReject Outcome)) (e : JobReject),
      .error e ∈ jobs → ∀ outs, runWithConcurrencyResult jobs ≠ .ok outs) ∧
    (∀ (limit m : Nat) (s : SchedState), SchedReachable limit m s →
      s.pending + s.active + s.finished = m ∧
        (s.pending = 0 → s.active = 0 → s.finished = m)) := by
  refine ⟨?_, ?_, ?_, ?_⟩
  · intro profileId site sessionDir settings r attempt fp hfp
    cases hatt : attempt fp with
    | ok u =>
      left
      simp only [runCollector, hfp, hatt]
    | error e =>
      right
      refine ⟨e, ?_⟩
      simp only [runCollector, hfp, hatt]
  · intro jobs hall
    induction jobs with
    | nil => exact ⟨[], rfl, rfl⟩
    | cons j rest ih =>
      obtain ⟨o, rfl⟩ := hall j (List.mem_cons_self _ _)
      obtain ⟨outs, houts, hlen⟩ := ih (fun x hx => hall x (List.mem_cons_of_mem _ hx))
      refine ⟨o :: outs, ?_, by simp [hlen]⟩
      simp only [runWithConcurrencyResult, houts]
  · intro jobs e
    induction jobs with
    | nil =>
      intro hmem
      simp at hmem
    | cons j rest ih =>
      intro hmem outs h
      rcases List.mem_cons.mp hmem with h1 | h2
      · rw [← h1] at h
        simp [runWithConcurrencyResult] at h
      · cases j with
        | error e2 => simp [runWithConcurrencyResult] at h
        | ok o =>
          cases hrec : runWithConcurrencyResult rest with
          | error e3 => simp [runWithConcurrencyResult, hrec] at h
          | ok outs2 => exact ih h2 outs2 hrec
  · intro limit m s hr
    have := sched_conservation s hr
    exact ⟨this, fun hp ha => by omega⟩

/-- Witness for `partial_failure_isolation`: a job whose pre-try phase
succeeds but whose navigation fails resolves error-shaped; a 2-job batch of
resolved outcomes yields 2 results; a batch containing a pre-try rejection
yields none; a terminal 2-job schedule has 2 completions. -/
theorem partial_failure_isolation_witness :
    (runCollector "0002" "siteB" "sessions/run/0002" {} (fun _ => 0) (.ok ())
        (fun _ => .error "navigation timeout") = .ok (.ok "sessions/run/0002" defaultFp) ∨
      ∃ e, runCollector "0002" "siteB" "sessions/run/0002" {} (fun _ => 0) (.ok ())
        (fun _ => .error "navigation timeout") = .ok (.error e "0002" "siteB")) ∧
    (∃ outs, runWithConcurrencyResult
        [.ok (.error "navigation timeout" "0002" "siteB"),
          .ok (.ok "sessions/run/0003" defaultFp)] = .ok outs ∧
      outs.length = 2) ∧
    (∀ outs, runWithConcurrencyResult
        [.error (.ioError "mkdir failed"),
          .ok (.ok "sessions/run/0003" defaultFp)] ≠ .ok outs) ∧
    ((SchedState.mk 0 0 2 false).pending + (SchedState.mk 0 0 2 false).active +
        (SchedState.mk 0 0 2 false).finished = 2 ∧
      ((SchedState.mk 0 0 2 false).pending = 0 → (SchedState.mk 0 0 2 false).active = 0 →
        (SchedState.mk 0 0 2 false).finished = 2)) := by
  refine ⟨?_, ?_, ?_, ?_⟩
  · exact partial_failure_isolation.1 "0002" "siteB" "sessions/run/0002" {} (fun _ => 0)
      (fun _ => .error "navigation timeout") defaultFp rfl
  · refine partial_failure_isolation.2.1 _ ?_
    intro j hj
    rcases List.mem_cons.mp hj with rfl | hj2
    · exact ⟨_, rfl⟩
    · rcases List.mem_cons.mp hj2 with rfl | hj3
      · exact ⟨_, rfl⟩
      · simp at hj3
  · exact partial_failure_isolation.2.2.1 _ (.ioError "mkdir failed")
      (List.mem_cons_self _ _)
  · have h1 : SchedReachable 1 2 ⟨2, 0, 0, false⟩ := .init
    have h2 : SchedReachable 1 2 ⟨1, 1, 0, true⟩ :=
      h1.step (SchedStep.start _ (by decide) rfl)
    have h3 : SchedReachable 1 2 ⟨1, 0, 1, false⟩ :=
      h2.step (SchedStep.finish _ (by decide))
    have h4 : SchedReachable 1 2 ⟨0, 1, 1, true⟩ :=
      h3.step (SchedStep.start _ (by decide) rfl)
    have h5 : SchedReachable 1 2 ⟨0, 0, 2, false⟩ :=
      h4.step (SchedStep.finish _ (by decide))
    exact partial_failure_isolation.2.2.2 1 2 _ h5

/-! ## Cycle-count derivation (src/unnamed/part_003 lines 82-87, 112-127) -/

/-- `computeCycleCount(durationSec, swapSec)`, lines 82-87: a missing or
non-positive duration or swap interval yields 1; otherwise
`Math.max(1, Math.ceil(durationSec / swapSec))`. -/
def computeCycleCount (durationSec swapSec : Option Rat) : Int :=
  match durationSec, swapSec with
  | some d, some s => if d ≤ 0 ∨ s ≤ 0 then 1 else max 1 ⌈d / s⌉
  | _, _ => 1

/-- `schedulingEnabled = settings.enableScheduling && !runOnce` (line 112)
and the phase default (lines 113-118): the derived cycle count when
scheduling is enabled, else 1. -/
def cyclesDefault (enableScheduling runOnce : Bool)
    (durationSec swapSec : Option Rat) : Int :=
  if enableScheduling && !runOnce then computeCycleCount durationSec swapSec else 1

/-- Cycle-override resolution (lines 120-127):
`Number.isFinite(override) && override > 0 ? override : derivedDefault`. -/
def resolveCycles (overrideCycles : Option Int) (derivedDefault : Int) : Int :=
  match overrideCycles with
  | some o => if 0 < o then o else derivedDefault
  | none => derivedDefault

/-- C9 counterexample: with totalDuration 10s and swapInterval 3s the
derived count is ⌈10/3⌉ = 4, and an explicitly supplied cycle-count override
of 0 does not take precedence — the controller uses the derived 4 instead of
the supplied 0. -/
theorem cycle_override_zero_ignored :
    computeCycleCount (some 10) (some 3) = 4 ∧
    resolveCycles (some 0) (computeCycleCount (some 10) (some 3)) = 4 ∧
    (4 : Int) ≠ 0 := by
  refine ⟨?_, ?_, by decide⟩ <;> norm_num [computeCycleCount, resolveCycles, Int.ceil_eq_iff]

/-- C9 (amended). With scheduling enabled and a non-single-shot invocation
the cycle count is max(1, ⌈totalDuration/swapInterval⌉) — in particular at
least 1, and equal to the ceiling for positive inputs — with missing or
non-positive duration/interval yielding 1; a supplied override takes
precedence exactly when it is a positive number, while a non-positive
override is ignored in favour of the derived value. -/
theorem cycle_count_derivation (enableScheduling runOnce : Bool)
    (d s : Rat) (ov : Option Int) :
    (enableScheduling = true → runOnce = false → 0 < d → 0 < s →
      cyclesDefault enableScheduling runOnce (some d) (some s) = ⌈d / s⌉ ∧
      1 ≤ cyclesDefault enableScheduling runOnce (some d) (some s)) ∧
    (∀ dd ss : Option Rat,
      ((dd = none ∨ ∃ q, dd = some q ∧ q ≤ 0) ∨ (ss = none ∨ ∃ q, ss = some q ∧ q ≤ 0)) →
      computeCycleCount dd ss = 1) ∧
    (∀ o : Int, ov = some o → 0 < o → ∀ derivedDefault,
      resolveCycles ov derivedDefault = o) ∧
    (∀ derivedDefault, (ov = none ∨ ∃ o, ov = some o ∧ o ≤ 0) →
      resolveCycles ov derivedDefault = derivedDefault) := by
  refine ⟨?_, ?_, ?_, ?_⟩
  · intro he hr hd hs
    have hpos : (0 : Rat) < d / s := div_pos hd hs
    have hceil : 1 ≤ ⌈d / s⌉ := by
      have := Int.ceil_pos.mpr hpos
      omega
    have hmax : max 1 ⌈d / s⌉ = ⌈d / s⌉ := max_eq_right hceil
    constructor
    · simp [cyclesDefault, he, hr, computeCycleCount, not_le.mpr hd, not_le.mpr hs, hmax]
    · simp [cyclesDefault, he, hr, computeCycleCount, not_le.mpr hd, not_le.mpr hs, hmax, hceil]
  · rintro dd ss ((rfl | ⟨q, rfl, hq⟩) | (rfl | ⟨q, rfl, hq⟩))
    · cases ss <;> rfl
    · cases ss with
      | none => rfl
      | some s2 =>
        show (if q ≤ 0 ∨ s2 ≤ 0 then (1 : Int) else max 1 ⌈q / s2⌉) = 1
        rw [if_pos (Or.inl hq)]
    · cases dd <;> rfl
    · cases dd with
      | none => rfl
      | some d2 =>
        show (if d2 ≤ 0 ∨ q ≤ 0 then (1 : Int) else max 1 ⌈d2 / q⌉) = 1
        rw [if_pos (Or.inr hq)]
  · rintro o rfl ho derivedDefault
    simp [resolveCycles, ho]
  · rintro derivedDefault (rfl | ⟨o, rfl, ho⟩)
    · rfl
    · simp [resolveCycles, not_lt.mpr ho]

/-- Witness for `cycle_count_derivation`: scheduling enabled, not
single-shot, duration 10s, swap 3s, override 7 supplied. -/
theorem cycle_count_derivation_witness :
    cyclesDefault true false (some 10) (some 3) = ⌈(10 : Rat) / 3⌉ ∧
    resolveCycles (some 7) (cyclesDefault true false (some 10) (some 3)) = 7 := by
  constructor
  · exact ((cycle_count_derivation true false 10 3 (some 7)).1 rfl rfl (by norm_num)
      (by norm_num)).1
  · exact (cycle_count_derivation true false 10 3 (some 7)).2.2.1 7 rfl (by decide) _

/-! ## Display grid planner (src/src/action.js lines 77-282)

The in-process caches (`cachedScreenDimensions`, `cachedGridLayout`) memoize
pure computations keyed by (count, width, height); the embedding models the
cached computation directly.  JavaScript `Math.floor(a / b)` is `Int.fdiv`;
the floating-point usage scores are modelled over `Rat` (for the layouts the
claims touch the score gaps are far larger than any rounding error). -/

inductive OSPlatform where
  | win32
  | darwin
  | linux
  deriving DecidableEq, Repr

/-- `osPlatform === "win32" ? 0 : 16` (src/src/action.js line 87). -/
def chromeBorderOf (p : OSPlatform) : Int := if p = .win32 then 0 else 16

/-- `osPlatform === "win32" ? 80 : 88` (src/src/action.js line 88). -/
def chromeTopBarOf (p : OSPlatform) : Int := if p = .win32 then 80 else 88

structure GridLayout where
  cols : Nat
  rows : Nat
  margin : Int
  availableWidth : Int
  availableHeight : Int
  baseWindowWidth : Int
  baseWindowHeight : Int
  chromeBorder : Int
  chromeTopBar : Int
  deriving DecidableEq, Repr

/-- One iteration of the grid-search loop of `calculateGridLayout`
(src/src/action.js lines 102-142), folding the best
(score, cols, rows) so far over a candidate column count. -/
def considerCols (plat : OSPlatform) (visibleCount : Nat)
    (availableWidth availableHeight : Int) (acc : Rat × Nat × Nat)
    (testCols : Nat) : Rat × Nat × Nat :=
  let testRows : Nat := (visibleCount + testCols - 1) / testCols
  if testCols * testRows < visibleCount then acc
  else
    let testWindowWidth : Int := Int.fdiv availableWidth testCols
    let testWindowHeight : Int := Int.fdiv availableHeight testRows
    let testViewportWidth : Int := testWindowWidth - chromeBorderOf plat
    let testViewportHeight : Int := testWindowHeight - chromeTopBarOf plat
    if testViewportWidth < 300 ∨ testViewportHeight < 200 then acc
    else
      let totalGridWidth : Int := testCols * testWindowWidth
      let totalGridHeight : Int := testRows * testWindowHeight
      let widthUsage : Rat := (totalGridWidth : Rat) / (availableWidth : Rat)
      let heightUsage : Rat := (totalGridHeight : Rat) / (availableHeight : Rat)
      let score0 : Rat := (widthUsage + heightUsage) / 2
      let score1 : Rat :=
        if visibleCount = 2 ∧ testCols = 1 ∧ testRows = 2 then score0 + 1/2 else score0
      let score : Rat := if testCols ≤ testRows then score1 + 1/10 else score1
      if acc.1 < score then (score, testCols, testRows) else acc

/-- `calculateGridLayout(visibleCount, screenDims)` from src/src/action.js
lines 77-166: fixed 20px margin, candidate column counts 1..N scored by
screen usage with the vertical-layout preferences, ties kept first-found
(strict `>` replacement), best score initialised to -1 with a 1×1 default. -/
def calculateGridLayout (plat : OSPlatform) (visibleCount : Nat)
    (screenW screenH : Int) : GridLayout :=
  let margin : Int := 20
  let availableWidth : Int := screenW - margin * 2
  let availableHeight : Int := screenH - margin * 2
  let best : Rat × Nat × Nat :=
    (List.range visibleCount).foldl
      (fun acc i => considerCols plat visibleCount availableWidth availableHeight acc (i + 1))
      ((-1 : Rat), 1, 1)
  let cols := best.2.1
  let rows := best.2.2
  { cols := cols
    rows := rows
    margin := margin
    availableWidth := availableWidth
    availableHeight := availableHeight
    baseWindowWidth := Int.fdiv availableWidth cols
    baseWindowHeight := Int.fdiv availableHeight rows
    chromeBorder := chromeBorderOf plat
    chromeTopBar := chromeTopBarOf plat }

/-- The window geometry `computeWindowArgs` hands to the browser launcher. -/
structure WindowRect where
  left : Int
  top : Int
  width : Int
  height : Int
  viewportWidth : Int
  viewportHeight : Int
  deriving DecidableEq, Repr

/-- `computeWindowArgs(index, settings, viewport)` from src/src/action.js
lines 168-282 (geometry part): `settings.visibleCount || 1`, out-of-range
index reset to 0, grid cell by row-major index with the last column/row
absorbing the remainder, two clamping passes against the physical screen
with a 200×150 window minimum, and the chrome-inset viewport floored at
1×1. -/
def computeWindowArgs (plat : OSPlatform) (index0 visibleCount0 : Nat)
    (screenW screenH : Int) : WindowRect :=
  let visibleCount : Nat := if visibleCount0 = 0 then 1 else visibleCount0
  let index : Nat := if visibleCount ≤ index0 then 0 else index0
  let grid := calculateGridLayout plat visibleCount screenW screenH
  let col : Nat := index % grid.cols
  let row : Nat := index / grid.cols
  let left : Int := grid.margin + col * grid.baseWindowWidth
  let top : Int := grid.margin + row * grid.baseWindowHeight
  let w0 : Int :=
    if col = grid.cols - 1 then grid.availableWidth - col * grid.baseWindowWidth
    else grid.baseWindowWidth
  let h0 : Int :=
    if row = grid.rows - 1 then grid.availableHeight - row * grid.baseWindowHeight
    else grid.baseWindowHeight
  let maxLeft : Int := max 0 (screenW - w0)
  let maxTop : Int := max 0 (screenH - h0)
  let left1 : Int := max 0 (min left maxLeft)
  let top1 : Int := max 0 (min top maxTop)
  let remainingWidth : Int := screenW - left1
  let remainingHeight : Int := screenH - top1
  let w1 : Int := min w0 remainingWidth
  let h1 : Int := min h0 remainingHeight
  let w2 : Int := max 200 w1
  let h2 : Int := max 150 h1
  let finalMaxLeft : Int := max 0 (screenW - w2)
  let finalMaxTop : Int := max 0 (screenH - h2)
  let left2 : Int := max 0 (min left1 finalMaxLeft)
  let top2 : Int := max 0 (min top1 finalMaxTop)
  { left := left2
    top := top2
    width := w2
    height := h2
    viewportWidth := max 1 (w2 - grid.chromeBorder)
    viewportHeight := max 1 (h2 - grid.chromeTopBar) }

/-- Membership of a point in a window cell, cells taken half-open so that
adjacent windows meet only on shared edges. -/
def inWindowRect (rect : WindowRect) (x y : Int) : Prop :=
  rect.left ≤ x ∧ x < rect.left + rect.width ∧
  rect.top ≤ y ∧ y < rect.top + rect.height

instance (rect : WindowRect) (x y : Int) : Decidable (inWindowRect rect x y) := by
  unfold inWindowRect
  infer_instance

unseal Rat.add Rat.mul Rat.inv Rat.sub in
/-- C2 counterexample: for N = 3 windows on a 1920×1080 screen the planner
picks a 2×2 grid, so the three windows leave the fourth grid cell
uncovered: the point (1000, 600) lies inside the available area (screen
minus margin) but inside none of the three computed cells — the cells do
not tile the available area. -/
theorem grid_gap_counterexample :
    ((calculateGridLayout .win32 3 1920 1080).margin ≤ 1000 ∧
      1000 < (calculateGridLayout .win32 3 1920 1080).margin +
        (calculateGridLayout .win32 3 1920 1080).availableWidth ∧
      (calculateGridLayout .win32 3 1920 1080).margin ≤ 600 ∧
      600 < (calculateGridLayout .win32 3 1920 1080).margin +
        (calculateGridLayout .win32 3 1920 1080).availableHeight) ∧
    ∀ i, i < 3 → ¬ inWindowRect (computeWindowArgs .win32 i 3 1920 1080) 1000 600 := by
  decide

/-- Every candidate the grid search can select has at least one column and
one row, as does the 1×1 default. -/
lemma considerCols_preserves (plat : OSPlatform) (N : Nat) (aw ah : Int)
    (acc : Rat × Nat × Nat) (c : Nat) (hc : 1 ≤ c) (hN : 1 ≤ N)
    (h : 1 ≤ acc.2.1 ∧ 1 ≤ acc.2.2) :
    1 ≤ (considerCols plat N aw ah acc c).2.1 ∧
    1 ≤ (considerCols plat N aw ah acc c).2.2 := by
  have hrows : 1 ≤ (N + c - 1) / c := by
    rw [Nat.one_le_div_iff (by omega)]
    omega
  constructor
  · simp only [considerCols]
    repeat' split
    all_goals first | exact h.1 | exact hc
  · simp only [considerCols]
    repeat' split
    all_goals first | exact h.2 | exact hrows

/-- The chosen layout always has at least one column and one row. -/
lemma calculateGridLayout_pos (plat : OSPlatform) (N : Nat) (sw sh : Int)
    (hN : 1 ≤ N) :
    1 ≤ (calculateGridLayout plat N sw sh).cols ∧
    1 ≤ (calculateGridLayout plat N sw sh).rows := by
  have h := List.foldlRecOn (motive := fun b : Rat × Nat × Nat => 1 ≤ b.2.1 ∧ 1 ≤ b.2.2)
    (List.range N)
    (fun acc i => considerCols plat N (sw - 20 * 2) (sh - 20 * 2) acc (i + 1))
    ((-1 : Rat), 1, 1) ⟨le_refl 1, le_refl 1⟩
    (fun b hb i _ => considerCols_preserves plat N _ _ b (i + 1) (by omega) hN hb)
  exact h

lemma calculateGridLayout_availW (plat : OSPlatform) (N : Nat) (sw sh : Int) :
    (calculateGridLayout plat N sw sh).availableWidth = sw - 40 := rfl

lemma calculateGridLayout_availH (plat : OSPlatform) (N : Nat) (sw sh : Int) :
    (calculateGridLayout plat N sw sh).availableHeight = sh - 40 := rfl

lemma calculateGridLayout_margin (plat : OSPlatform) (N : Nat) (sw sh : Int) :
    (calculateGridLayout plat N sw sh).margin = 20 := rfl

lemma calculateGridLayout_baseW (plat : OSPlatform) (N : Nat) (sw sh : Int) :
    (calculateGridLayout plat N sw sh).baseWindowWidth =
      Int.fdiv (calculateGridLayout plat N sw sh).availableWidth
        (calculateGridLayout plat N sw sh).cols := rfl

lemma calculateGridLayout_baseH (plat : OSPlatform) (N : Nat) (sw sh : Int) :
    (calculateGridLayout plat N sw sh).baseWindowHeight =
      Int.fdiv (calculateGridLayout plat N sw sh).availableHeight
        (calculateGridLayout plat N sw sh).rows := rfl

/-- `Math.floor`-division bound: the chosen base cell size times the number
of cells fits inside the available length. -/
lemma cells_fit (W : Int) (cols : Nat) (hc : 1 ≤ cols) :
    (cols : Int) * Int.fdiv W cols ≤ W := by
  have h1 : (1 : Int) ≤ (cols : Int) := by exact_mod_cast hc
  rw [Int.fdiv_eq_ediv _ (by omega)]
  rw [mul_comm]
  exact Int.ediv_mul_le W (by omega)

/-- On one axis, a point of [0, W) lies in the half-open cell of at most one
column index (cells of width B, the last column absorbing the remainder). -/
lemma axis_mem_unique {B W : Int} {cols : Nat} (hB : 0 < B)
    {c₁ c₂ : Nat} (h₁ : c₁ < cols) (h₂ : c₂ < cols) {x : Int}
    (hs₁ : (c₁ : Int) * B ≤ x)
    (he₁ : x < (if c₁ = cols - 1 then W else ((c₁ : Int) + 1) * B))
    (hs₂ : (c₂ : Int) * B ≤ x)
    (he₂ : x < (if c₂ = cols - 1 then W else ((c₂ : Int) + 1) * B)) :
    c₁ = c₂ := by
  have key : ∀ a b : Nat, a < b → b < cols → (b : Int) * B ≤ x →
      x < (if a = cols - 1 then W else ((a : Int) + 1) * B) → False := by
    intro a b hab hbc hsb hea
    rw [if_neg (by omega)] at hea
    have hmono : ((a : Int) + 1) * B ≤ (b : Int) * B :=
      mul_le_mul_of_nonneg_right (by exact_mod_cast hab) hB.le
    omega
  rcases Nat.lt_trichotomy c₁ c₂ with h | h | h
  · exact (key c₁ c₂ h h₂ hs₂ he₁).elim
  · exact h
  · exact (key c₂ c₁ h h₁ hs₁ he₂).elim

/-- On one axis, every point of [0, W) lies in the half-open cell of some
column index below `cols`. -/
lemma axis_mem_exists (B W : Int) (cols : Nat) (hc : 1 ≤ cols) (hB : 0 < B)
    (x : Int) (hx0 : 0 ≤ x) (hxW : x < W) :
    ∃ c : Nat, c < cols ∧ (c : Int) * B ≤ x ∧
      x < (if c = cols - 1 then W else ((c : Int) + 1) * B) := by
  have hq0 : 0 ≤ x / B := Int.ediv_nonneg hx0 hB.le
  have hdm := Int.ediv_mul_le x (b := B) (by omega)
  by_cases hq : (cols : Int) - 1 ≤ x / B
  · refine ⟨cols - 1, by omega, ?_, ?_⟩
    · have h1 : ((cols - 1 : Nat) : Int) * B ≤ (x / B) * B := by
        apply mul_le_mul_of_nonneg_right _ hB.le
        push_cast [Nat.cast_sub hc]
        omega
      omega
    · rw [if_pos rfl]
      exact hxW
  · push_neg at hq
    refine ⟨(x / B).toNat, by omega, ?_, ?_⟩
    · rw [Int.toNat_of_nonneg hq0]
      exact hdm
    · rw [if_neg (by omega), Int.toNat_of_nonneg hq0]
      exact Int.lt_ediv_add_one_mul_self x hB

/-- Geometry of one half-open cell along an axis: the cell starts inside
[0, W], is at least B wide, and ends inside [0, W]. -/
lemma cell_geom {B W : Int} {cols c : Nat} (hc : c < cols) (hB : 0 < B)
    (hcW : (cols : Int) * B ≤ W) :
    0 ≤ (c : Int) * B ∧
    B ≤ (if c = cols - 1 then W - (c : Int) * B else B) ∧
    (c : Int) * B + (if c = cols - 1 then W - (c : Int) * B else B) ≤ W := by
  have h0 : 0 ≤ (c : Int) * B := mul_nonneg (by positivity) hB.le
  have hsucc : ((c : Int) + 1) * B ≤ (cols : Int) * B :=
    mul_le_mul_of_nonneg_right (by exact_mod_cast hc) hB.le
  have hexp : ((c : Int) + 1) * B = (c : Int) * B + B := by ring
  rw [hexp] at hsucc
  refine ⟨h0, ?_, ?_⟩ <;> split <;> omega

/-- Under the no-clamping hypotheses (the grid exactly fills N = cols×rows
and the base cell respects the 200×150 window minimum) `computeWindowArgs`
returns the unclamped grid cell: position margin + (col, row)·base, size
base except that the last column and row absorb the remainder. -/
lemma computeWindowArgs_spec (plat : OSPlatform) (N i : Nat) (sw sh : Int)
    (g : GridLayout) (hg : calculateGridLayout plat N sw sh = g)
    (hN : 1 ≤ N) (hi : i < N)
    (hfill : g.cols * g.rows = N)
    (hbw : 200 ≤ g.baseWindowWidth) (hbh : 150 ≤ g.baseWindowHeight) :
    computeWindowArgs plat i N sw sh =
      { left := 20 + (↑(i % g.cols) : Int) * g.baseWindowWidth
        top := 20 + (↑(i / g.cols) : Int) * g.baseWindowHeight
        width := if i % g.cols = g.cols - 1 then
            g.availableWidth - (↑(i % g.cols) : Int) * g.baseWindowWidth
          else g.baseWindowWidth
        height := if i / g.cols = g.rows - 1 then
            g.availableHeight - (↑(i / g.cols) : Int) * g.baseWindowHeight
          else g.baseWindowHeight
        viewportWidth := max 1 ((if i % g.cols = g.cols - 1 then
            g.availableWidth - (↑(i % g.cols) : Int) * g.baseWindowWidth
          else g.baseWindowWidth) - g.chromeBorder)
        viewportHeight := max 1 ((if i / g.cols = g.rows - 1 then
            g.availableHeight - (↑(i / g.cols) : Int) * g.baseWindowHeight
          else g.baseWindowHeight) - g.chromeTopBar) } := by
  have hpos := calculateGridLayout_pos plat N sw sh hN
  rw [hg] at hpos
  have havW : g.availableWidth = sw - 40 := by rw [← hg]; rfl
  have havH : g.availableHeight = sh - 40 := by rw [← hg]; rfl
  have hmarg : g.margin = 20 := by rw [← hg]; rfl
  have hbaseW : g.baseWindowWidth = Int.fdiv g.availableWidth g.cols := by
    rw [← hg]; rfl
  have hbaseH : g.baseWindowHeight = Int.fdiv g.availableHeight g.rows := by
    rw [← hg]; rfl
  have hcol : i % g.cols < g.cols := Nat.mod_lt _ (by omega)
  have hrow : i / g.cols < g.rows := by
    rw [Nat.div_lt_iff_lt_mul (by omega), Nat.mul_comm]
    omega
  have hfitW : (g.cols : Int) * g.baseWindowWidth ≤ g.availableWidth := by
    rw [hbaseW]
    exact cells_fit _ _ (by omega)
  have hfitH : (g.rows : Int) * g.baseWindowHeight ≤ g.availableHeight := by
    rw [hbaseH]
    exact cells_fit _ _ (by omega)
  obtain ⟨hx0, hxB, hxW⟩ := cell_geom hcol (by omega) hfitW
  obtain ⟨hy0, hyB, hyH⟩ := cell_geom hrow (by omega) hfitH
  simp only [computeWindowArgs]
  rw [if_neg (by omega : ¬ N = 0), if_neg (by omega : ¬ N ≤ i), hg, hmarg,
    WindowRect.mk.injEq]
  rcases eq_or_ne (i % g.cols) (g.cols - 1) with hcl | hcl <;>
    rcases eq_or_ne (i / g.cols) (g.rows - 1) with hrl | hrl
  · simp only [if_pos hcl, if_pos hrl] at hxB hxW hyB hyH ⊢
    refine ⟨?_, ?_, ?_, ?_, ?_, ?_⟩ <;> omega
  · simp only [if_pos hcl, if_neg hrl] at hxB hxW hyB hyH ⊢
    refine ⟨?_, ?_, ?_, ?_, ?_, ?_⟩ <;> omega
  · simp only [if_neg hcl, if_pos hrl] at hxB hxW hyB hyH ⊢
    refine ⟨?_, ?_, ?_, ?_, ?_, ?_⟩ <;> omega
  · simp only [if_neg hcl, if_neg hrl] at hxB hxW hyB hyH ⊢
    refine ⟨?_, ?_, ?_, ?_, ?_, ?_⟩ <;> omega
/-- Translation between window-cell membership (margin-shifted) and the
axis-cell form used by the partition lemmas. -/
lemma cell_mem_axis {B W : Int} {cols c : Nat} (x : Int) :
    (20 + (c : Int) * B ≤ x ∧
      x < 20 + (c : Int) * B + (if c = cols - 1 then W - (c : Int) * B else B)) ↔
    ((c : Int) * B ≤ x - 20 ∧
      x - 20 < (if c = cols - 1 then W else ((c : Int) + 1) * B)) := by
  have hlink : ((c : Int) + 1) * B = (c : Int) * B + B := by ring
  rcases eq_or_ne c (cols - 1) with h | h
  · simp only [if_pos h]
    omega
  · simp only [if_neg h]
    omega

/-- C2 (amended). When the chosen grid is exactly filled (N = columns×rows,
e.g. N = 1, 2 or 4 on a 1920×1080 screen) and the screen is large enough
that the base cell respects the 200×150 minimum window size (so no clamping
fires), the N computed cells tile the available area exactly: every point of
the available area lies in exactly one half-open cell (overlaps only on
shared edges) and every cell stays within the physical screen bounds.  When
columns×rows exceeds N the unoccupied grid cells are uncovered
(`grid_gap_counterexample`). -/
theorem grid_tiling (plat : OSPlatform) (N : Nat) (sw sh : Int)
    (g : GridLayout) (hg : calculateGridLayout plat N sw sh = g)
    (hN : 1 ≤ N) (hfill : g.cols * g.rows = N)
    (hbw : 200 ≤ g.baseWindowWidth) (hbh : 150 ≤ g.baseWindowHeight) :
    (∀ x y : Int,
      (20 ≤ x ∧ x < 20 + g.availableWidth ∧ 20 ≤ y ∧ y < 20 + g.availableHeight) ↔
        ∃ i, i < N ∧ inWindowRect (computeWindowArgs plat i N sw sh) x y) ∧
    (∀ x y : Int, ∀ i j : Nat, i < N → j < N →
      inWindowRect (computeWindowArgs plat i N sw sh) x y →
      inWindowRect (computeWindowArgs plat j N sw sh) x y → i = j) ∧
    (∀ i : Nat, i < N →
      0 ≤ (computeWindowArgs plat i N sw sh).left ∧
      (computeWindowArgs plat i N sw sh).left +
        (computeWindowArgs plat i N sw sh).width ≤ sw ∧
      0 ≤ (computeWindowArgs plat i N sw sh).top ∧
      (computeWindowArgs plat i N sw sh).top +
        (computeWindowArgs plat i N sw sh).height ≤ sh) := by
  have hpos := calculateGridLayout_pos plat N sw sh hN
  rw [hg] at hpos
  have havW : g.availableWidth = sw - 40 := by rw [← hg]; rfl
  have havH : g.availableHeight = sh - 40 := by rw [← hg]; rfl
  have hbaseW : g.baseWindowWidth = Int.fdiv g.availableWidth g.cols := by
    rw [← hg]; rfl
  have hbaseH : g.baseWindowHeight = Int.fdiv g.availableHeight g.rows := by
    rw [← hg]; rfl
  have hfitW : (g.cols : Int) * g.baseWindowWidth ≤ g.availableWidth := by
    rw [hbaseW]
    exact cells_fit _ _ (by omega)
  have hfitH : (g.rows : Int) * g.baseWindowHeight ≤ g.availableHeight := by
    rw [hbaseH]
    exact cells_fit _ _ (by omega)
  have hspec := fun (i : Nat) (hi : i < N) =>
    computeWindowArgs_spec plat N i sw sh g hg hN hi hfill hbw hbh
  -- window-cell membership in axis form, for every index below N
  have hmem_iff : ∀ i, i < N → ∀ x y : Int,
      inWindowRect (computeWindowArgs plat i N sw sh) x y ↔
        (((i % g.cols : Nat) : Int) * g.baseWindowWidth ≤ x - 20 ∧
          x - 20 < (if i % g.cols = g.cols - 1 then g.availableWidth
            else ((i % g.cols : Nat) + 1 : Int) * g.baseWindowWidth)) ∧
        (((i / g.cols : Nat) : Int) * g.baseWindowHeight ≤ y - 20 ∧
          y - 20 < (if i / g.cols = g.rows - 1 then g.availableHeight
            else ((i / g.cols : Nat) + 1 : Int) * g.baseWindowHeight)) := by
    intro i hi x y
    rw [hspec i hi]
    simp only [inWindowRect]
    rw [← cell_mem_axis, ← cell_mem_axis]
    constructor
    · rintro ⟨h1, h2, h3, h4⟩
      exact ⟨⟨h1, h2⟩, h3, h4⟩
    · rintro ⟨⟨h1, h2⟩, h3, h4⟩
      exact ⟨h1, h2, h3, h4⟩
  refine ⟨?_, ?_, ?_⟩
  · intro x y
    constructor
    · rintro ⟨hx1, hx2, hy1, hy2⟩
      obtain ⟨c, hc, hcs, hce⟩ := axis_mem_exists g.baseWindowWidth g.availableWidth
        g.cols (by omega) (by omega) (x - 20) (by omega) (by omega)
      obtain ⟨r, hr, hrs, hre⟩ := axis_mem_exists g.baseWindowHeight g.availableHeight
        g.rows (by omega) (by omega) (y - 20) (by omega) (by omega)
      have hlink : (r + 1) * g.cols = r * g.cols + g.cols := by ring
      have hmul : (r + 1) * g.cols ≤ g.rows * g.cols :=
        Nat.mul_le_mul_right _ (by omega)
      have hcomm : g.rows * g.cols = g.cols * g.rows := Nat.mul_comm _ _
      have hiN : r * g.cols + c < N := by omega
      refine ⟨r * g.cols + c, hiN, ?_⟩
      have hmod : (r * g.cols + c) % g.cols = c := by
        rw [Nat.mul_comm r g.cols, Nat.mul_add_mod]
        exact Nat.mod_eq_of_lt hc
      have hdiv : (r * g.cols + c) / g.cols = r := by
        rw [Nat.mul_comm r g.cols, Nat.mul_add_div (by omega)]
        simp [Nat.div_eq_of_lt hc]
      rw [hmem_iff _ hiN, hmod, hdiv]
      exact ⟨⟨hcs, hce⟩, hrs, hre⟩
    · rintro ⟨i, hi, hmem⟩
      rw [hmem_iff i hi] at hmem
      obtain ⟨⟨hx1, hx2⟩, hy1, hy2⟩ := hmem
      have hcol : i % g.cols < g.cols := Nat.mod_lt _ (by omega)
      have hrow : i / g.cols < g.rows := by
        rw [Nat.div_lt_iff_lt_mul (by omega), Nat.mul_comm]
        omega
      obtain ⟨hx0, hxB, hxW⟩ := cell_geom hcol (by omega) hfitW
      obtain ⟨hy0, hyB, hyH⟩ := cell_geom hrow (by omega) hfitH
      have hlx : ((i % g.cols : Nat) + 1 : Int) * g.baseWindowWidth =
          ((i % g.cols : Nat) : Int) * g.baseWindowWidth + g.baseWindowWidth := by ring
      have hly : ((i / g.cols : Nat) + 1 : Int) * g.baseWindowHeight =
          ((i / g.cols : Nat) : Int) * g.baseWindowHeight + g.baseWindowHeight := by ring
      rcases eq_or_ne (i % g.cols) (g.cols - 1) with hcl | hcl <;>
        rcases eq_or_ne (i / g.cols) (g.rows - 1) with hrl | hrl
      · simp only [if_pos hcl, if_pos hrl] at hx2 hy2 hxB hxW hyB hyH
        omega
      · simp only [if_pos hcl, if_neg hrl] at hx2 hy2 hxB hxW hyB hyH
        omega
      · simp only [if_neg hcl, if_pos hrl] at hx2 hy2 hxB hxW hyB hyH
        omega
      · simp only [if_neg hcl, if_neg hrl] at hx2 hy2 hxB hxW hyB hyH
        omega
  · intro x y i j hi hj hmi hmj
    rw [hmem_iff i hi] at hmi
    rw [hmem_iff j hj] at hmj
    have hB : (0 : Int) < g.baseWindowWidth := by omega
    have hH : (0 : Int) < g.baseWindowHeight := by omega
    have hcolI : i % g.cols < g.cols := Nat.mod_lt _ (by omega)
    have hcolJ : j % g.cols < g.cols := Nat.mod_lt _ (by omega)
    have hrowI : i / g.cols < g.rows := by
      rw [Nat.div_lt_iff_lt_mul (by omega), Nat.mul_comm]
      omega
    have hrowJ : j / g.cols < g.rows := by
      rw [Nat.div_lt_iff_lt_mul (by omega), Nat.mul_comm]
      omega
    have hceq : i % g.cols = j % g.cols :=
      axis_mem_unique hB hcolI hcolJ hmi.1.1 hmi.1.2 hmj.1.1 hmj.1.2
    have hreq : i / g.cols = j / g.cols :=
      axis_mem_unique hH hrowI hrowJ hmi.2.1 hmi.2.2 hmj.2.1 hmj.2.2
    have hdmi := Nat.div_add_mod i g.cols
    have hdmj := Nat.div_add_mod j g.cols
    rw [← hreq, ← hceq] at hdmj
    omega
  · intro i hi
    rw [hspec i hi]
    have hcol : i % g.cols < g.cols := Nat.mod_lt _ (by omega)
    have hrow : i / g.cols < g.rows := by
      rw [Nat.div_lt_iff_lt_mul (by omega), Nat.mul_comm]
      omega
    obtain ⟨hx0, hxB, hxW⟩ := cell_geom hcol (by omega) hfitW
    obtain ⟨hy0, hyB, hyH⟩ := cell_geom hrow (by omega) hfitH
    rcases eq_or_ne (i % g.cols) (g.cols - 1) with hcl | hcl <;>
      rcases eq_or_ne (i / g.cols) (g.rows - 1) with hrl | hrl
    · simp only [if_pos hcl, if_pos hrl] at hxB hxW hyB hyH ⊢
      refine ⟨?_, ?_, ?_, ?_⟩ <;> omega
    · simp only [if_pos hcl, if_neg hrl] at hxB hxW hyB hyH ⊢
      refine ⟨?_, ?_, ?_, ?_⟩ <;> omega
    · simp only [if_neg hcl, if_pos hrl] at hxB hxW hyB hyH ⊢
      refine ⟨?_, ?_, ?_, ?_⟩ <;> omega
    · simp only [if_neg hcl, if_neg hrl] at hxB hxW hyB hyH ⊢
      refine ⟨?_, ?_, ?_, ?_⟩ <;> omega

/-- The layout the planner picks for 4 windows on a 1920×1080 win32 screen
(2×2 grid of 940×520 cells). -/
def gridLayout4 : GridLayout :=
  { cols := 2, rows := 2, margin := 20, availableWidth := 1880,
    availableHeight := 1040, baseWindowWidth := 940, baseWindowHeight := 520,
    chromeBorder := 0, chromeTopBar := 80 }

unseal Rat.add Rat.mul Rat.inv Rat.sub in
/-- Witness for `grid_tiling`: 4 windows on a 1920×1080 win32 screen give a
2×2 grid that exactly fills N and respects the size minimum. -/
theorem grid_tiling_witness :
    (∀ x y : Int,
      (20 ≤ x ∧ x < 20 + gridLayout4.availableWidth ∧
        20 ≤ y ∧ y < 20 + gridLayout4.availableHeight) ↔
        ∃ i, i < 4 ∧ inWindowRect (computeWindowArgs .win32 i 4 1920 1080) x y) ∧
    (∀ x y : Int, ∀ i j : Nat, i < 4 → j < 4 →
      inWindowRect (computeWindowArgs .win32 i 4 1920 1080) x y →
      inWindowRect (computeWindowArgs .win32 j 4 1920 1080) x y → i = j) ∧
    (∀ i : Nat, i < 4 →
      0 ≤ (computeWindowArgs .win32 i 4 1920 1080).left ∧
      (computeWindowArgs .win32 i 4 1920 1080).left +
        (computeWindowArgs .win32 i 4 1920 1080).width ≤ 1920 ∧
      0 ≤ (computeWindowArgs .win32 i 4 1920 1080).top ∧
      (computeWindowArgs .win32 i 4 1920 1080).top +
        (computeWindowArgs .win32 i 4 1920 1080).height ≤ 1080) :=
  grid_tiling .win32 4 1920 1080 gridLayout4 (by decide) (by decide) (by decide)
    (by decide) (by decide)

end PuppeteerBot
